import Mathlib

/-!
Shallow embedding of the real-time landmark annotation pipeline
(`BaseLandmarkerApp` in `src/computer_vision/landmarks/base.py`).

Modelling conventions:
* Floating-point coordinates and clock readings are modelled as `Rat`.
* A detector landmark carries x, y, z plus visibility/presence (the
  detector's native point); `normalize_landmark_list` rebuilds each point
  as a `NormalizedLandmark` keeping only x, y, z, exactly as the Python
  list comprehension does.
* The mutable frame is modelled as the list of drawing operations applied
  to it so far; each drawing helper takes the current frame and returns
  the extended frame, mirroring in-place mutation.
* The run loop is driven by a finite trace of per-iteration environment
  inputs (camera-open flag, read success, detector output or failure,
  wall-clock reading at the history-append point, polled key).
-/

/-- A landmark point as produced by the detector (mediapipe landmarks carry
x, y, z and confidence fields). -/
structure Landmark where
  x : Rat
  y : Rat
  z : Rat
  visibility : Rat
  presence : Rat
deriving Repr, DecidableEq

/-- A `landmark_pb2.NormalizedLandmark` built with only x, y, z. -/
structure NormalizedLandmark where
  x : Rat
  y : Rat
  z : Rat
deriving Repr, DecidableEq

/-- A drawing style bundle (`mp.solutions.drawing_utils.DrawingSpec` dict
entry): color, thickness, circle radius. -/
structure DrawingSpec where
  color : Nat
  thickness : Nat
  circleRadius : Nat
deriving Repr, DecidableEq

/-- One drawing operation applied to the frame's pixel buffer. -/
inductive DrawOp where
  /-- A connection line between landmark indices i and j in a given style. -/
  | line (i : Nat) (j : Nat) (spec : DrawingSpec)
  /-- The timestamp text (`f"<t>.3f s"` at the fixed position) for elapsed
  time `t`. -/
  | text (timestamp : Rat)
deriving Repr, DecidableEq

/-- `normalize_landmark_list`: rebuild every point of the landmark list as a
`NormalizedLandmark(x=l.x, y=l.y, z=l.z)`, in order. -/
def normalize_landmark_list (landmark_list : List Landmark) :
    List NormalizedLandmark :=
  landmark_list.map (fun l => { x := l.x, y := l.y, z := l.z })

/-- Line 52 of `base.py`: `landmark_list_raw[0] if landmark_list_raw else []`
— keep the first detected subject, or the empty snapshot. -/
def selectLandmarkList (landmark_list_raw : List (List Landmark)) :
    List Landmark :=
  match landmark_list_raw with
  | [] => []
  | first :: _ => first

/-- The connection-line operations one call to the drawing primitive emits:
every connection both of whose endpoint indices are below the number of
landmarks, in connection-list order, in the given style; out-of-range
connections contribute nothing. -/
def layerOps (numLandmarks : Nat) (connections : List (Nat × Nat))
    (spec : DrawingSpec) : List DrawOp :=
  (connections.filter
      (fun c => decide (c.1 < numLandmarks) && decide (c.2 < numLandmarks))).map
    (fun c => DrawOp.line c.1 c.2 spec)

/-- Modelled from the spec: `mp.solutions.drawing_utils.draw_landmarks` is an
external collaborator (the "drawing boundary" of §6: accepts a frame, a set of
index-pair connections and a style bundle, draws in place). Per §4.2 it draws
every connection whose both endpoint indices are present in the landmark list,
skipping the others silently. -/
def draw_landmarks (image : List DrawOp) (landmark_list : List NormalizedLandmark)
    (connections : List (Nat × Nat)) (spec : DrawingSpec) : List DrawOp :=
  image ++ layerOps landmark_list.length connections spec

/-- `annotate_landmarks`: if the landmark list is empty return the image
untouched; otherwise normalize it and draw each (connections, drawing-spec)
pair of `zip(connections_list, drawing_specs_list)` in order onto the image. -/
def annotate_landmarks (image : List DrawOp)
    (connections_list : List (List (Nat × Nat)))
    (landmark_list : List Landmark)
    (drawing_specs_list : List DrawingSpec) : List DrawOp :=
  if landmark_list.isEmpty then image
  else
    let normalized := normalize_landmark_list landmark_list
    (connections_list.zip drawing_specs_list).foldl
      (fun img p => draw_landmarks img normalized p.1 p.2) image

/-- `annotate_landmarks` viewed on the pair (image state, landmark-list
state): the image is extended with the drawing operations, the landmark list
is only read, never written. -/
def annotate_landmarks_st (image : List DrawOp)
    (connections_list : List (List (Nat × Nat)))
    (landmark_list : List Landmark)
    (drawing_specs_list : List DrawingSpec) :
    List DrawOp × List Landmark :=
  (annotate_landmarks image connections_list landmark_list drawing_specs_list,
    landmark_list)

/-- `annotate_time`: `cv2.putText` of the elapsed time onto the frame. -/
def annotate_time (image : List DrawOp) (timestamp : Rat) : List DrawOp :=
  image ++ [DrawOp.text timestamp]

-- ### The run loop

/-- The environment inputs one iteration of the `run` loop consumes:
whether `self.cap.isOpened()` holds, the success flag of `self.cap.read()`,
the detector's subject list (`getattr(detection_result, self.landmarks_type)`)
or a detector failure, the `time.time()` reading taken for the history entry,
and the value of `cv2.waitKey(1)` masked to a byte. -/
structure IterInput where
  opened : Bool
  ret : Bool
  raw : List (List Landmark)
  detectOk : Bool
  readTime : Rat
  key : Nat
deriving Repr, DecidableEq

/-- One element of `self.history`: the dict
`{"time": t, "landmarks": landmark_list}`. -/
structure HistoryEntry where
  time : Rat
  landmarks : List Landmark
deriving Repr, DecidableEq

/-- Delivery of one annotated frame: `yield annotated_image` in streamlit
mode, `cv2.imshow` otherwise. -/
inductive Output where
  | yielded (image : List DrawOp)
  | displayed (image : List DrawOp)
deriving Repr, DecidableEq

/-- The observable outcome of one `run` call: the history list when control
leaves the loop, the delivered frames in order, whether `self.cap.release()`
and `cv2.destroyAllWindows()` were executed, and whether an exception
propagated out of the loop. -/
structure RunResult where
  history : List HistoryEntry
  outputs : List Output
  released : Bool
  destroyed : Bool
  raised : Bool
deriving Repr, DecidableEq

/-- The annotated image built for one iteration: start from the raw frame
pixels (`image.numpy_view()`, modelled as the empty operation list), apply
`annotate_time`, then `annotate_landmarks`. -/
def frameImage (t0 : Rat) (connections_list : List (List (Nat × Nat)))
    (drawing_specs_list : List DrawingSpec) (inp : IterInput) : List DrawOp :=
  annotate_landmarks (annotate_time [] (inp.readTime - t0)) connections_list
    (selectLandmarkList inp.raw) drawing_specs_list

/-- `BaseLandmarkerApp.run` after `t0 = time.time()`: iterate while the
capture is open; read a frame (break on failure); run the detector (a
detector exception propagates, skipping the release/destroy lines after the
loop); keep the first subject; append the history entry; annotate time then
landmarks; yield in streamlit mode, otherwise show; break if the polled key
masked to a byte is ESC (27). After the loop, release the capture and
destroy the windows. -/
def runLoop (t0 : Rat) (streamlit_mode : Bool)
    (connections_list : List (List (Nat × Nat)))
    (drawing_specs_list : List DrawingSpec)
    (hist : List HistoryEntry) : List IterInput → RunResult
  | [] => ⟨hist, [], true, true, false⟩
  | inp :: rest =>
    if inp.opened = false then ⟨hist, [], true, true, false⟩
    else if inp.ret = false then ⟨hist, [], true, true, false⟩
    else if inp.detectOk = false then ⟨hist, [], false, false, true⟩
    else
      let t := inp.readTime - t0
      let entry : HistoryEntry := ⟨t, selectLandmarkList inp.raw⟩
      let img := frameImage t0 connections_list drawing_specs_list inp
      let out := if streamlit_mode then Output.yielded img
        else Output.displayed img
      if inp.key % 256 = 27 then ⟨hist ++ [entry], [out], true, true, false⟩
      else
        let r := runLoop t0 streamlit_mode connections_list drawing_specs_list
          (hist ++ [entry]) rest
        ⟨r.history, out :: r.outputs, r.released, r.destroyed, r.raised⟩

/-- The prefix of the input trace whose frames complete an iteration of the
loop (reach the history append and the delivery). -/
def processed : List IterInput → List IterInput
  | [] => []
  | inp :: rest =>
    if inp.opened = false then []
    else if inp.ret = false then []
    else if inp.detectOk = false then []
    else if inp.key % 256 = 27 then [inp]
    else inp :: processed rest

/-- Whether the trace makes the detector raise before the loop ends. -/
def anyRaise : List IterInput → Bool
  | [] => false
  | inp :: rest =>
    if inp.opened = false then false
    else if inp.ret = false then false
    else if inp.detectOk = false then true
    else if inp.key % 256 = 27 then false
    else anyRaise rest

/-- The history entry a processed frame appends. -/
def entryOf (t0 : Rat) (inp : IterInput) : HistoryEntry :=
  ⟨inp.readTime - t0, selectLandmarkList inp.raw⟩

/-- The delivery a processed frame performs. -/
def outputOf (streamlit_mode : Bool) (t0 : Rat)
    (connections_list : List (List (Nat × Nat)))
    (drawing_specs_list : List DrawingSpec) (inp : IterInput) : Output :=
  if streamlit_mode then
    Output.yielded (frameImage t0 connections_list drawing_specs_list inp)
  else Output.displayed (frameImage t0 connections_list drawing_specs_list inp)


/-- The two wall-clock instants at the start of a session: the instant
`__init__` ran (the constructor stores no clock reading) and the instant the
body of `run` started executing (`t0 = time.time()`, line 42). -/
structure SessionTimes where
  constructedAt : Rat
  runStartedAt : Rat
deriving Repr, DecidableEq

-- ### Generic lemmas about the annotator

theorem annotate_landmarks_nil (image : List DrawOp)
    (connections_list : List (List (Nat × Nat)))
    (drawing_specs_list : List DrawingSpec) :
    annotate_landmarks image connections_list [] drawing_specs_list = image := rfl

theorem foldl_draw_eq_flatten (normalized : List NormalizedLandmark) :
    ∀ (pairs : List (List (Nat × Nat) × DrawingSpec)) (image : List DrawOp),
      pairs.foldl (fun img p => draw_landmarks img normalized p.1 p.2) image
        = image ++
          (pairs.map (fun p => layerOps normalized.length p.1 p.2)).flatten
  | [], image => by simp
  | p :: rest, image => by
    rw [List.foldl_cons, foldl_draw_eq_flatten normalized rest]
    simp [draw_landmarks]

theorem annotate_landmarks_eq_flatten (image : List DrawOp)
    (connections_list : List (List (Nat × Nat)))
    (landmark_list : List Landmark)
    (drawing_specs_list : List DrawingSpec)
    (h : landmark_list ≠ []) :
    annotate_landmarks image connections_list landmark_list drawing_specs_list
      = image ++
        ((connections_list.zip drawing_specs_list).map
          (fun p =>
            layerOps (normalize_landmark_list landmark_list).length p.1 p.2)).flatten := by
  rw [annotate_landmarks]
  rw [if_neg (by simpa [List.isEmpty_iff] using h)]
  exact foldl_draw_eq_flatten _ _ _

theorem length_normalize (landmark_list : List Landmark) :
    (normalize_landmark_list landmark_list).length = landmark_list.length := by
  simp [normalize_landmark_list]

theorem layerOps_count (numLandmarks : Nat) (spec : DrawingSpec) (i j : Nat) :
    ∀ connections : List (Nat × Nat),
      (layerOps numLandmarks connections spec).count (DrawOp.line i j spec)
        = if i < numLandmarks ∧ j < numLandmarks then connections.count (i, j)
          else 0
  | [] => by simp [layerOps]
  | c :: rest => by
    have ih := layerOps_count numLandmarks spec i j rest
    by_cases hc : c.1 < numLandmarks ∧ c.2 < numLandmarks
    · have hfil :
          layerOps numLandmarks (c :: rest) spec
            = DrawOp.line c.1 c.2 spec :: layerOps numLandmarks rest spec := by
        simp [layerOps, List.filter_cons, hc.1, hc.2]
      rw [hfil]
      by_cases hij : c = (i, j)
      · subst hij
        simp only [List.count_cons, ih]
        simp [hc]
      · have h1 : (DrawOp.line c.1 c.2 spec) ≠ DrawOp.line i j spec := by
          intro hcon
          apply hij
          cases hcon
          rfl
        rw [List.count_cons_of_ne (fun hcon => h1 hcon.symm) ]
        rw [ih, List.count_cons_of_ne]
        intro hcon
        exact hij hcon.symm
    · have hfil :
          layerOps numLandmarks (c :: rest) spec
            = layerOps numLandmarks rest spec := by
        rcases Nat.lt_or_ge c.1 numLandmarks with h1 | h1
        · have h2 : ¬ c.2 < numLandmarks := fun h2 => hc ⟨h1, h2⟩
          simp [layerOps, List.filter_cons, h2]
        · have h1n : ¬ c.1 < numLandmarks := Nat.not_lt.mpr h1
          simp [layerOps, List.filter_cons, h1n]
      rw [hfil, ih]
      by_cases hij : c = (i, j)
      · subst hij
        simp only [if_neg hc]
      · rw [List.count_cons_of_ne]
        intro hcon
        exact hij hcon.symm

-- ### Claim theorems about the normalizer and annotator

/-- C2: on a frame with an empty landmark snapshot the pipeline still draws
the timestamp text (`annotate_time` runs first), while `annotate_landmarks`
leaves the frame untouched — no connection line is drawn and no error is
raised (the function is total and is the identity on the image). -/
theorem c2_empty_snapshot_timestamp_only (t : Rat)
    (connections_list : List (List (Nat × Nat)))
    (drawing_specs_list : List DrawingSpec) (image : List DrawOp) :
    annotate_landmarks (annotate_time [] t) connections_list [] drawing_specs_list
        = [DrawOp.text t]
      ∧ annotate_landmarks image connections_list [] drawing_specs_list = image := by
  constructor
  · rfl
  · rfl

/-- C3: normalization of the raw detection result keeps exactly the first
detected subject — on a result listing one or more subjects the snapshot is
the first subject's point list itself (same points, same order, coordinates
untouched) and every later subject is discarded; on a result listing no
subject the snapshot is empty. -/
theorem c3_first_subject_only (first : List Landmark)
    (rest : List (List Landmark)) (second : List Landmark) :
    selectLandmarkList (first :: rest) = first
      ∧ selectLandmarkList (first :: second :: rest) = selectLandmarkList [first]
      ∧ selectLandmarkList [] = ([] : List Landmark) := by
  refine ⟨rfl, rfl, rfl⟩

/-- C8: `normalize_landmark_list` maps an N-point snapshot to exactly N
normalized points, in order, with each point's x, y, z preserved; and the
annotator never changes the snapshot — only the image component of the
state is extended. -/
theorem c8_normalize_roundtrip (landmark_list : List Landmark)
    (image : List DrawOp) (connections_list : List (List (Nat × Nat)))
    (drawing_specs_list : List DrawingSpec) :
    (normalize_landmark_list landmark_list).length = landmark_list.length
      ∧ (normalize_landmark_list landmark_list).map (fun p => (p.x, p.y, p.z))
          = landmark_list.map (fun p => (p.x, p.y, p.z))
      ∧ (annotate_landmarks_st image connections_list landmark_list
          drawing_specs_list).2 = landmark_list := by
  refine ⟨length_normalize landmark_list, ?_, rfl⟩
  simp [normalize_landmark_list]

theorem zip_take_min {α β : Type} :
    ∀ (l : List α) (l2 : List β),
      l.zip l2 = (l.take (min l.length l2.length)).zip
        (l2.take (min l.length l2.length)) := by
  intro l l2
  have hlen : (l.zip l2).length = min l.length l2.length := List.length_zip l l2
  calc l.zip l2 = (l.zip l2).take (min l.length l2.length) := by
        rw [List.take_of_length_le (le_of_eq hlen)]
    _ = (l.take (min l.length l2.length)).zip
          (l2.take (min l.length l2.length)) := by
        rw [List.zip_eq_zipWith, List.take_zipWith, List.zip_eq_zipWith]

/-- C6: on a non-empty snapshot the annotator walks the
(connection set, drawing spec) pairs in list order, appending each layer's
operations after the previous layers' (later layers sit on top); within a
layer, a connection whose two endpoint indices are both below the snapshot
length is drawn exactly as many times as it occurs in the connection set, in
that layer's style, and a connection with a missing index contributes no
operation and raises no error. -/
theorem c6_layer_order_and_counts (image : List DrawOp)
    (connections_list : List (List (Nat × Nat)))
    (landmark_list : List Landmark)
    (drawing_specs_list : List DrawingSpec)
    (connections : List (Nat × Nat)) (spec : DrawingSpec) (i j : Nat)
    (hne : landmark_list ≠ []) :
    annotate_landmarks image connections_list landmark_list drawing_specs_list
        = image ++
          ((connections_list.zip drawing_specs_list).map
            (fun p =>
              layerOps (normalize_landmark_list landmark_list).length
                p.1 p.2)).flatten
      ∧ (layerOps (normalize_landmark_list landmark_list).length connections
            spec).count (DrawOp.line i j spec)
          = if i < landmark_list.length ∧ j < landmark_list.length then
              connections.count (i, j)
            else 0 := by
  constructor
  · exact annotate_landmarks_eq_flatten image connections_list landmark_list
      drawing_specs_list hne
  · rw [layerOps_count, length_normalize]

theorem c6_witness :
    ([⟨0, 0, 0, 1, 1⟩, ⟨1, 1, 0, 1, 1⟩] : List Landmark) ≠ []
      ∧ (annotate_landmarks [] [[(0, 1)]]
            [⟨0, 0, 0, 1, 1⟩, ⟨1, 1, 0, 1, 1⟩] [⟨7, 1, 2⟩]
          = [] ++
            (([[(0, 1)]].zip [(⟨7, 1, 2⟩ : DrawingSpec)]).map
              (fun p =>
                layerOps
                  (normalize_landmark_list
                    [⟨0, 0, 0, 1, 1⟩, ⟨1, 1, 0, 1, 1⟩]).length
                  p.1 p.2)).flatten
        ∧ (layerOps
              (normalize_landmark_list
                [⟨0, 0, 0, 1, 1⟩, ⟨1, 1, 0, 1, 1⟩]).length
              [(0, 1), (0, 5)] ⟨7, 1, 2⟩).count (DrawOp.line 0 1 ⟨7, 1, 2⟩)
            = if 0 < ([⟨0, 0, 0, 1, 1⟩, ⟨1, 1, 0, 1, 1⟩] : List Landmark).length
                  ∧ 1 < ([⟨0, 0, 0, 1, 1⟩, ⟨1, 1, 0, 1, 1⟩] : List Landmark).length
                then ([(0, 1), (0, 5)] : List (Nat × Nat)).count (0, 1)
              else 0) :=
  ⟨by decide,
    c6_layer_order_and_counts [] [[(0, 1)]]
      [⟨0, 0, 0, 1, 1⟩, ⟨1, 1, 0, 1, 1⟩] [⟨7, 1, 2⟩]
      [(0, 1), (0, 5)] ⟨7, 1, 2⟩ 0 1 (by decide)⟩

/-- C10: when `connections_list` and `drawing_specs_list` have different
lengths, `annotate_landmarks` draws exactly `min` of the two lengths many
overlay layers — its result on the full lists equals its result on the lists
truncated to that common length, so the surplus entries of the longer list
are ignored, and no error is raised. -/
theorem c10_zip_truncation (image : List DrawOp)
    (connections_list : List (List (Nat × Nat)))
    (landmark_list : List Landmark)
    (drawing_specs_list : List DrawingSpec)
    (hne : landmark_list ≠ [])
    (hdiff : connections_list.length ≠ drawing_specs_list.length) :
    annotate_landmarks image connections_list landmark_list drawing_specs_list
        = annotate_landmarks image
            (connections_list.take
              (min connections_list.length drawing_specs_list.length))
            landmark_list
            (drawing_specs_list.take
              (min connections_list.length drawing_specs_list.length))
      ∧ (connections_list.zip drawing_specs_list).length
          = min connections_list.length drawing_specs_list.length := by
  refine ⟨?_, List.length_zip connections_list drawing_specs_list⟩
  have hnil : ¬ landmark_list.isEmpty := by simpa [List.isEmpty_iff] using hne
  rw [annotate_landmarks, annotate_landmarks, if_neg hnil, if_neg hnil]
  rw [← zip_take_min connections_list drawing_specs_list]

theorem c10_witness :
    ([⟨0, 0, 0, 1, 1⟩] : List Landmark) ≠ []
      ∧ ([[(0, 1)], [(1, 2)]] : List (List (Nat × Nat))).length
          ≠ ([⟨7, 1, 2⟩] : List DrawingSpec).length
      ∧ (annotate_landmarks [] [[(0, 1)], [(1, 2)]] [⟨0, 0, 0, 1, 1⟩] [⟨7, 1, 2⟩]
          = annotate_landmarks []
              (([[(0, 1)], [(1, 2)]] : List (List (Nat × Nat))).take
                (min ([[(0, 1)], [(1, 2)]] : List (List (Nat × Nat))).length
                  ([⟨7, 1, 2⟩] : List DrawingSpec).length))
              [⟨0, 0, 0, 1, 1⟩]
              (([⟨7, 1, 2⟩] : List DrawingSpec).take
                (min ([[(0, 1)], [(1, 2)]] : List (List (Nat × Nat))).length
                  ([⟨7, 1, 2⟩] : List DrawingSpec).length))
        ∧ (([[(0, 1)], [(1, 2)]] : List (List (Nat × Nat))).zip
              ([⟨7, 1, 2⟩] : List DrawingSpec)).length
            = min ([[(0, 1)], [(1, 2)]] : List (List (Nat × Nat))).length
                ([⟨7, 1, 2⟩] : List DrawingSpec).length) :=
  ⟨by decide, by decide,
    c10_zip_truncation [] [[(0, 1)], [(1, 2)]] [⟨0, 0, 0, 1, 1⟩] [⟨7, 1, 2⟩]
      (by decide) (by decide)⟩

theorem runLoop_spec (t0 : Rat) (streamlit_mode : Bool)
    (connections_list : List (List (Nat × Nat)))
    (drawing_specs_list : List DrawingSpec) :
    ∀ (inputs : List IterInput) (hist : List HistoryEntry),
      runLoop t0 streamlit_mode connections_list drawing_specs_list hist inputs
        = ⟨hist ++ (processed inputs).map (entryOf t0),
            (processed inputs).map
              (outputOf streamlit_mode t0 connections_list drawing_specs_list),
            !anyRaise inputs, !anyRaise inputs, anyRaise inputs⟩
  | [], hist => by simp [runLoop, processed, anyRaise]
  | inp :: rest, hist => by
    have ih := runLoop_spec t0 streamlit_mode connections_list
      drawing_specs_list rest
    by_cases h1 : inp.opened = false
    · simp [runLoop, processed, anyRaise, h1]
    · by_cases h2 : inp.ret = false
      · simp [runLoop, processed, anyRaise, h1, h2]
      · by_cases h3 : inp.detectOk = false
        · simp [runLoop, processed, anyRaise, h1, h2, h3]
        · by_cases h4 : inp.key % 256 = 27
          · simp [runLoop, processed, anyRaise, h1, h2, h3, h4, entryOf,
              outputOf]
          · simp [runLoop, processed, anyRaise, h1, h2, h3, h4, ih, entryOf,
              outputOf]

theorem processed_sublist : ∀ inputs : List IterInput,
    List.Sublist (processed inputs) inputs
  | [] => List.Sublist.refl []
  | inp :: rest => by
    rw [processed]
    by_cases h1 : inp.opened = false
    · simp [h1]
    · by_cases h2 : inp.ret = false
      · simp [h1, h2]
      · by_cases h3 : inp.detectOk = false
        · simp [h1, h2, h3]
        · by_cases h4 : inp.key % 256 = 27
          · simp only [h1, h2, h3, h4, if_false, if_true, if_neg, if_pos]
            exact (List.nil_sublist rest).cons₂ inp
          · simp only [h1, h2, h3, h4, if_false, if_true, if_neg, if_pos]
            exact (processed_sublist rest).cons₂ inp

theorem annotate_landmarks_extends (image : List DrawOp)
    (connections_list : List (List (Nat × Nat)))
    (landmark_list : List Landmark)
    (drawing_specs_list : List DrawingSpec) :
    ∃ extra : List DrawOp,
      annotate_landmarks image connections_list landmark_list drawing_specs_list
        = image ++ extra := by
  by_cases h : landmark_list = []
  · subst h
    exact ⟨[], by simp [annotate_landmarks_nil]⟩
  · exact ⟨_, annotate_landmarks_eq_flatten image connections_list
      landmark_list drawing_specs_list h⟩

theorem frameImage_head (t0 : Rat)
    (connections_list : List (List (Nat × Nat)))
    (drawing_specs_list : List DrawingSpec) (inp : IterInput) :
    ∃ extra : List DrawOp,
      frameImage t0 connections_list drawing_specs_list inp
        = DrawOp.text (inp.readTime - t0) :: extra := by
  obtain ⟨extra, he⟩ := annotate_landmarks_extends
    (annotate_time [] (inp.readTime - t0)) connections_list
    (selectLandmarkList inp.raw) drawing_specs_list
  exact ⟨extra, by rw [frameImage, he]; rfl⟩

-- ### Claim theorems about the run loop

/-- C1 (counterexample): in streamlit mode, processing one frame does append
a History Entry — on a one-frame trace the history, empty beforehand, holds
one entry afterwards, so the claim that no entry is recorded in this mode is
false. -/
theorem c1_counterexample :
    (runLoop 0 true [] [] [] [⟨true, true, [], true, 1, 0⟩]).history
        = [⟨1, []⟩]
      ∧ (runLoop 0 true [] [] [] [⟨true, true, [], true, 1, 0⟩]).history
          ≠ [] := by
  have h : (runLoop 0 true [] [] [] [⟨true, true, [], true, 1, 0⟩]).history
      = [⟨1, []⟩] := by
    simp [runLoop, selectLandmarkList]
  refine ⟨h, ?_⟩
  rw [h]
  simp

/-- C1 (amended): in streaming/pull mode every processed frame yields the
annotated frame to the caller and also appends exactly one History Entry —
the history append is unconditional, identical to blocking mode. -/
theorem c1_streaming_yields_and_appends (t0 : Rat)
    (connections_list : List (List (Nat × Nat)))
    (drawing_specs_list : List DrawingSpec)
    (hist : List HistoryEntry) (inputs : List IterInput) :
    (runLoop t0 true connections_list drawing_specs_list hist inputs).history
        = hist ++ (processed inputs).map (entryOf t0)
      ∧ (runLoop t0 true connections_list drawing_specs_list hist inputs).outputs
          = (processed inputs).map
              (fun inp => Output.yielded
                (frameImage t0 connections_list drawing_specs_list inp)) := by
  rw [runLoop_spec]
  exact ⟨rfl, by simp [outputOf]⟩

/-- C4: across one blocking-display session started with an empty (or any
prior) history, the History Buffer is append-only — the final history is the
initial one extended by one entry per processed frame, in frame arrival
order —, its new entries' elapsed times are strictly increasing whenever the
wall-clock readings of the trace are strictly increasing, and its new length
equals the number of frames successfully processed (one delivery each). -/
theorem c4_history_append_only_monotone (t0 : Rat)
    (connections_list : List (List (Nat × Nat)))
    (drawing_specs_list : List DrawingSpec)
    (hist : List HistoryEntry) (inputs : List IterInput)
    (hmono : (inputs.map IterInput.readTime).Pairwise (· < ·)) :
    (runLoop t0 false connections_list drawing_specs_list hist inputs).history
        = hist ++ (processed inputs).map (entryOf t0)
      ∧ (((processed inputs).map (entryOf t0)).map
          HistoryEntry.time).Pairwise (· < ·)
      ∧ ((processed inputs).map (entryOf t0)).length
          = (runLoop t0 false connections_list drawing_specs_list hist
              inputs).outputs.length := by
  rw [runLoop_spec]
  refine ⟨rfl, ?_, by simp⟩
  have hsub := (processed_sublist inputs).map IterInput.readTime
  have h1 := List.Pairwise.sublist hsub hmono
  rw [List.map_map]
  rw [List.pairwise_map] at h1 ⊢
  refine h1.imp ?_
  intro a b h
  simpa [entryOf] using sub_lt_sub_right h t0

theorem c4_witness :
    (([⟨true, true, [], true, 1, 0⟩,
        ⟨true, true, [], true, 2, 0⟩] : List IterInput).map
        IterInput.readTime).Pairwise (· < ·)
      ∧ ((runLoop 0 false [] [] []
            [⟨true, true, [], true, 1, 0⟩,
              ⟨true, true, [], true, 2, 0⟩]).history
          = [] ++ (processed
              [⟨true, true, [], true, 1, 0⟩,
                ⟨true, true, [], true, 2, 0⟩]).map (entryOf 0)
        ∧ (((processed
              [⟨true, true, [], true, 1, 0⟩,
                ⟨true, true, [], true, 2, 0⟩]).map (entryOf 0)).map
              HistoryEntry.time).Pairwise (· < ·)
        ∧ ((processed
              [⟨true, true, [], true, 1, 0⟩,
                ⟨true, true, [], true, 2, 0⟩]).map (entryOf 0)).length
            = (runLoop 0 false [] [] []
                [⟨true, true, [], true, 1, 0⟩,
                  ⟨true, true, [], true, 2, 0⟩]).outputs.length) :=
  ⟨by decide,
    c4_history_append_only_monotone 0 [] [] []
      [⟨true, true, [], true, 1, 0⟩, ⟨true, true, [], true, 2, 0⟩]
      (by decide)⟩

/-- C5 (counterexample): a detector exception does not release the frame
source or close the display — on a trace whose first frame makes the
detector raise, the run ends with the exception propagating and with
neither `cap.release()` nor `destroyAllWindows()` executed, so the claim
that every termination (unhandled exception included) releases both is
false. -/
theorem c5_counterexample :
    (runLoop 0 false [] [] [] [⟨true, true, [], false, 1, 0⟩]).raised = true
      ∧ (runLoop 0 false [] [] [] [⟨true, true, [], false, 1, 0⟩]).released
          = false
      ∧ (runLoop 0 false [] [] [] [⟨true, true, [], false, 1, 0⟩]).destroyed
          = false := by
  exact ⟨by decide, by decide, by decide⟩

/-- C5 (amended): the frame source is released and the display surface
closed exactly on the terminations that leave the loop normally
(frame-source exhaustion, closed capture, cancellation key, end of trace);
when an unhandled detector exception ends the session, both cleanup steps
are skipped, in either mode. -/
theorem c5_cleanup_iff_no_exception (t0 : Rat) (streamlit_mode : Bool)
    (connections_list : List (List (Nat × Nat)))
    (drawing_specs_list : List DrawingSpec)
    (hist : List HistoryEntry) (inputs : List IterInput) :
    (runLoop t0 streamlit_mode connections_list drawing_specs_list hist
          inputs).released
        = !(runLoop t0 streamlit_mode connections_list drawing_specs_list hist
            inputs).raised
      ∧ (runLoop t0 streamlit_mode connections_list drawing_specs_list hist
            inputs).destroyed
          = !(runLoop t0 streamlit_mode connections_list drawing_specs_list
              hist inputs).raised := by
  rw [runLoop_spec]
  exact ⟨rfl, rfl⟩

/-- C7 (counterexample): for a session constructed at clock 0 whose `run`
body starts at clock 10, a frame read at clock 11 is recorded with elapsed
time 1, not the 11 that elapsed since construction — so the claim that
streaming mode measures elapsed time from instance construction is false. -/
theorem c7_counterexample :
    ((runLoop (SessionTimes.mk 0 10).runStartedAt true [] [] []
          [⟨true, true, [], true, 11, 0⟩]).history.map HistoryEntry.time
        = [1])
      ∧ ((runLoop (SessionTimes.mk 0 10).runStartedAt true [] [] []
            [⟨true, true, [], true, 11, 0⟩]).history.map HistoryEntry.time
          ≠ [11 - (SessionTimes.mk 0 10).constructedAt]) := by
  have h : (runLoop (SessionTimes.mk 0 10).runStartedAt true [] [] []
        [⟨true, true, [], true, 11, 0⟩]).history.map HistoryEntry.time
      = [1] := by
    simp [runLoop, selectLandmarkList]
    norm_num
  refine ⟨h, ?_⟩
  rw [h]
  norm_num

/-- C7 (amended): in streaming/pull mode the elapsed time recorded in each
History Entry and stamped first onto each frame is measured from the moment
the body of `run` started executing (`t0 = time.time()` at the top of
`run`), independent of when the pipeline instance was constructed. -/
theorem c7_elapsed_from_run_start (s : SessionTimes)
    (connections_list : List (List (Nat × Nat)))
    (drawing_specs_list : List DrawingSpec) (inputs : List IterInput) :
    ((runLoop s.runStartedAt true connections_list drawing_specs_list []
          inputs).history.map HistoryEntry.time
        = (processed inputs).map (fun inp => inp.readTime - s.runStartedAt))
      ∧ ∀ inp : IterInput, ∃ extra : List DrawOp,
          frameImage s.runStartedAt connections_list drawing_specs_list inp
            = DrawOp.text (inp.readTime - s.runStartedAt) :: extra := by
  refine ⟨?_, fun inp => frameImage_head s.runStartedAt connections_list
    drawing_specs_list inp⟩
  rw [runLoop_spec]
  simp [entryOf]

/-- C9 (counterexample): streaming mode does observe the cancellation key —
on a two-frame trace whose first frame polls ESC, only one frame is
delivered, while the same trace with a neutral key delivers both; so the
claim that streaming mode never ends the session on a cancellation-key
observation is false. -/
theorem c9_counterexample :
    (runLoop 0 true [] [] []
        [⟨true, true, [], true, 1, 27⟩,
          ⟨true, true, [], true, 2, 0⟩]).outputs.length = 1
      ∧ (runLoop 0 true [] [] []
          [⟨true, true, [], true, 1, 0⟩,
            ⟨true, true, [], true, 2, 0⟩]).outputs.length = 2 := by
  exact ⟨by decide, by decide⟩

/-- C9 (amended): the cancellation-key poll runs in streaming/pull mode just
as in blocking mode — when a processed frame's polled key masks to ESC, the
session ends there and the remaining trace is never consumed. -/
theorem c9_esc_breaks_streaming (t0 : Rat)
    (connections_list : List (List (Nat × Nat)))
    (drawing_specs_list : List DrawingSpec)
    (hist : List HistoryEntry) (inp : IterInput) (rest : List IterInput)
    (h1 : inp.opened = true) (h2 : inp.ret = true) (h3 : inp.detectOk = true)
    (h4 : inp.key % 256 = 27) :
    runLoop t0 true connections_list drawing_specs_list hist (inp :: rest)
      = runLoop t0 true connections_list drawing_specs_list hist [inp] := by
  rw [runLoop_spec, runLoop_spec]
  have hp : processed (inp :: rest) = processed [inp] := by
    simp [processed, h1, h2, h3, h4]
  have ha : anyRaise (inp :: rest) = anyRaise [inp] := by
    simp [anyRaise, h1, h2, h3, h4]
  rw [hp, ha]

theorem c9_witness :
    ((⟨true, true, [], true, 1, 27⟩ : IterInput).opened = true
      ∧ (⟨true, true, [], true, 1, 27⟩ : IterInput).ret = true
      ∧ (⟨true, true, [], true, 1, 27⟩ : IterInput).detectOk = true
      ∧ (⟨true, true, [], true, 1, 27⟩ : IterInput).key % 256 = 27)
      ∧ runLoop 0 true [] [] []
          [⟨true, true, [], true, 1, 27⟩, ⟨true, true, [], true, 3, 0⟩]
        = runLoop 0 true [] [] [] [⟨true, true, [], true, 1, 27⟩] :=
  ⟨⟨rfl, rfl, rfl, by decide⟩,
    c9_esc_breaks_streaming 0 [] [] [] ⟨true, true, [], true, 1, 27⟩
      [⟨true, true, [], true, 3, 0⟩] rfl rfl rfl (by decide)⟩
